import Mathlib

/- Verification development for the Comment-API service.

   Embedded components:
   - the comment table row (src/db/models.py, class DbComment);
   - the storage operations create / read_all / update / patch / delete
     (src/db/db_comment.py), with SQL SELECT / UPDATE / DELETE semantics
     made explicit over a list of rows;
   - the route-level request flow (src/router/comment.py) including the
     pydantic max_length validation of the text field (src/schemas);
   - the exception-to-HTTP-response mapping registered in
     src/exc/exceptions.py, together with the Python/SQLAlchemy class
     hierarchy that drives handler resolution. -/

/-- A row of the comment table (src/db/models.py, class DbComment).
Python ints are modelled as Int; the timezone-aware server-assigned creation
timestamp is modelled as an abstract Int instant. -/
structure DbComment where
  id : Int
  user_id : Int
  post_id : Int
  text : String
  timestamp : Int
  deriving Repr, DecidableEq

/-- The paginated response schema (src/schemas/schemas_paginated_comment.py,
class PaginatedCommentDisplay); items hold the full row data, as Comments
carries the same five fields as the row. -/
structure PaginatedCommentDisplay where
  items : List DbComment
  next_cursor : Option Int
  has_more : Bool
  deriving Repr, DecidableEq

/-- Python truthiness of the optional last_id query parameter, as tested by
the line if last_id: in read_all (src/db/db_comment.py line 76): None and 0
are falsy, every other int is truthy. -/
def pyTruthy : Option Int → Bool
  | none => false
  | some n => n != 0

/-- The ORDER BY id DESC comparison: row a sorts no later than row b when
a.id is at least b.id. -/
def geId (a b : DbComment) : Prop := b.id ≤ a.id

instance : DecidableRel geId := fun a b => inferInstanceAs (Decidable (b.id ≤ a.id))

/-- Strictly-descending id relation.  A table listing is Pairwise gtId exactly
when it is in descending id order with no duplicated id (id is the primary
key, so distinct rows always have distinct ids). -/
def gtId (a b : DbComment) : Prop := b.id < a.id

instance : DecidableRel gtId := fun a b => inferInstanceAs (Decidable (b.id < a.id))

/-- The clause order_by(DbComment.id.desc()) of the read_all query. -/
def orderByIdDesc (s : List DbComment) : List DbComment := List.insertionSort geId s

/-- The rows admitted by the WHERE clause of the read_all query: when the
cursor is truthy the clause where(DbComment.id < last_id) keeps only rows
below the cursor, otherwise the query has no WHERE clause
(src/db/db_comment.py lines 76-84). -/
def eligibleRows (last_id : Option Int) (s : List DbComment) : List DbComment :=
  if pyTruthy last_id then s.filter fun c => decide (c.id < last_id.getD 0) else s

/-- The row sequence produced by executing the read_all query: WHERE filter,
ORDER BY id DESC, LIMIT limit + 1 (SQL applies the WHERE clause before
ORDER BY and LIMIT regardless of builder-method order). -/
def rawQuery (limit : Nat) (last_id : Option Int) (s : List DbComment) : List DbComment :=
  (orderByIdDesc (eligibleRows last_id s)).take (limit + 1)

/-- read_all (src/db/db_comment.py lines 54-97): fetch limit + 1 rows, trim
to limit, expose the id of the last trimmed item as next_cursor only when an
extra row proved that more pages exist.  The limit query parameter defaults
to 10 and is not constrained by the router, so 0 is a reachable value; it is
modelled as Nat (a negative limit would make the database reject the LIMIT
clause before any page is produced). -/
def read_all (limit : Nat) (last_id : Option Int) (s : List DbComment) :
    PaginatedCommentDisplay :=
  let comment := rawQuery limit last_id s
  let items := comment.take limit
  let next_cursor : Option Int := items.getLast?.map DbComment.id
  let has_more : Bool := decide (limit < comment.length)
  { items := items
    next_cursor := if has_more then next_cursor else none
    has_more := has_more }

/-- The serial primary key: the database assigns a fresh id strictly larger
than every id present (spec section 3: auto-assigned, strictly increasing by
insertion order). -/
def nextId (s : List DbComment) : Int := (s.map DbComment.id).foldr max 0 + 1

/-- create (src/db/db_comment.py lines 20-48): insert a new row built from the
request data, the caller's user id and the server clock, then commit. -/
def create (post_id : Int) (text : String) (user_id now : Int)
    (s : List DbComment) : DbComment × List DbComment :=
  let c : DbComment :=
    { id := nextId s, user_id := user_id, post_id := post_id,
      text := text, timestamp := now }
  (c, s ++ [c])

/-- The ownership-guarded WHERE predicate shared by update, patch and delete:
DbComment.id == comment_id AND DbComment.user_id == current_user_id
(src/db/db_comment.py lines 132, 181-184, 221-224). -/
def rowMatch (comment_id current_user_id : Int) (c : DbComment) : Bool :=
  c.id == comment_id && c.user_id == current_user_id

/-- update (src/db/db_comment.py lines 103-145): one UPDATE ... RETURNING
statement guarded by ownership.  scalar_one_or_none on the returned rows
yields None when no row matched, raising HTTPException 404 before the
commit; more than one returned row would raise MultipleResultsFound, which
the handlers of src/exc/exceptions.py turn into a 500 response (impossible
in practice because id is the primary key).  The error result carries the
outward HTTP status. -/
def update (comment_id : Int) (req_text : String) (current_user_id : Int)
    (s : List DbComment) : Except Nat (DbComment × List DbComment) :=
  let returned :=
    (s.filter (rowMatch comment_id current_user_id)).map
      fun c => { c with text := req_text }
  match returned with
  | [] => Except.error 404
  | [c] =>
      Except.ok (c, s.map fun x =>
        if rowMatch comment_id current_user_id x then { x with text := req_text } else x)
  | _ => Except.error 500

/-- patch (src/db/db_comment.py lines 151-198): request.model_dump with
exclude_unset drops the text key when the request body does not set it, and
the statement is built as sql_update(...).values(**updated_data).  The
request is modelled by the presence and value of its only patchable field.

When text is present the statement is the same ownership-guarded
UPDATE ... RETURNING as update, with the same 404-before-commit behaviour.

When text is absent, updated_data is empty and values() receives no
assignment at all: the resulting UPDATE statement has an empty SET clause,
which cannot be executed (SQL requires at least one assignment; SQLAlchemy
either refuses to compile the statement or emits invalid SQL that the
database rejects).  Every handler reachable from that failure in
src/exc/exceptions.py - CompileError and ArgumentError via
internal_logic_handler, ProgrammingError with a non-42P01/42703 sqlstate via
programming_error_handler, and the SQLAlchemyError or universal catch-alls -
produces a 500 response, so the absent-text call is modelled as failing with
status 500 before any row is touched. -/
def patch (comment_id : Int) (req_text : Option String) (current_user_id : Int)
    (s : List DbComment) : Except Nat (DbComment × List DbComment) :=
  match req_text with
  | none => Except.error 500
  | some t =>
    let returned :=
      (s.filter (rowMatch comment_id current_user_id)).map
        fun c => { c with text := t }
    match returned with
    | [] => Except.error 404
    | [c] =>
        Except.ok (c, s.map fun x =>
          if rowMatch comment_id current_user_id x then { x with text := t } else x)
    | _ => Except.error 500

/-- delete (src/db/db_comment.py lines 204-234): one DELETE statement guarded
by ownership; a zero rowcount on the CursorResult raises HTTPException 400
before the commit. -/
def delete (comment_id current_user_id : Int) (s : List DbComment) :
    Except Nat (List DbComment) :=
  let rowcount := s.countP (rowMatch comment_id current_user_id)
  if rowcount == 0 then Except.error 400
  else Except.ok (s.filter fun c => ! rowMatch comment_id current_user_id c)

/-- Request-level outcome of update: on an exception nothing was committed and
the session is rolled back by get_async_db (src/db/database.py), so the
store is unchanged; on success the committed store is the updated one.
Returns the error status (if any) and the store after the request. -/
def runUpdate (comment_id : Int) (req_text : String) (current_user_id : Int)
    (s : List DbComment) : Option Nat × List DbComment :=
  match update comment_id req_text current_user_id s with
  | Except.error e => (some e, s)
  | Except.ok (_, s') => (none, s')

/-- Request-level outcome of patch, with the same rollback-on-error semantics
as runUpdate. -/
def runPatch (comment_id : Int) (req_text : Option String) (current_user_id : Int)
    (s : List DbComment) : Option Nat × List DbComment :=
  match patch comment_id req_text current_user_id s with
  | Except.error e => (some e, s)
  | Except.ok (_, s') => (none, s')

/-- Request-level outcome of delete, with the same rollback-on-error semantics
as runUpdate. -/
def runDelete (comment_id current_user_id : Int) (s : List DbComment) :
    Option Nat × List DbComment :=
  match delete comment_id current_user_id s with
  | Except.error e => (some e, s)
  | Except.ok s' => (none, s')

/-- Pydantic validation of the text field: CommentModel, CommentUpdateModel
and CommentPatchModel all declare max_length=256
(src/schemas/schemas_comment.py); Python len and String.length both count
unicode code points. -/
def textValid (t : String) : Bool := decide (t.length ≤ 256)

/-- Validation of the patch body: the max_length constraint applies to the
optional text value only when the field is present. -/
def patchBodyValid : Option String → Bool
  | none => true
  | some t => textValid t

/-- Abstraction of a handler's JSONResponse (src/exc/exceptions.py): the HTTP
status code, and whether the body carries the retryable marker, the
key-value pair "retry": True.  Remaining body keys (detail, hint, type, ...)
play no role in the verified properties. -/
structure JsonResponse where
  status_code : Nat
  retryable : Bool
  deriving Repr, DecidableEq

/-- The exception classes appearing in src/exc/exceptions.py: every class a
handler is registered for (SQLAlchemy exceptions, RequestValidationError and
the universal Exception catch-all). -/
inductive Exc
  | dataError | identifierError
  | multipleResultsFound | noResultFound | resourceClosedError
  | illegalStateChangeError
  | integrityError | noReferencedTableError | programmingError
  | disconnectionError | invalidatePoolError | interfaceError | dbapiError
  | statementError | objectNotExecutableError | unboundExecutionError
  | notSupportedError
  | pendingRollbackError | invalidRequestError | missingGreenlet
  | internalError | databaseError | noInspectionAvailable
  | unreflectableTableError
  | noForeignKeysError | noReferencedColumnError | noReferenceError
  | argumentError | awaitRequired | unsupportedCompilationError | compileError
  | ambiguousForeignKeysError | circularDependencyError
  | constraintColumnNotFoundError | duplicateColumnError
  | noSuchTableError | noSuchColumnError
  | noSuchModuleError
  | sqlalchemyError
  | operationalError
  | timeoutError
  | requestValidationError
  | exception
  deriving Repr, DecidableEq

/-- The method resolution order of each exception class, restricted to the
classes above (the SQLAlchemy 2.x class hierarchy from sqlalchemy/exc.py;
unregistered interleaved bases such as KeyError for NoSuchColumnError are
omitted because no handler is attached to them).  Starlette resolves the
handler for a raised exception by walking this list front to back. -/
def pythonMro : Exc → List Exc
  | .dataError => [.dataError, .databaseError, .dbapiError, .statementError, .sqlalchemyError, .exception]
  | .identifierError => [.identifierError, .sqlalchemyError, .exception]
  | .multipleResultsFound => [.multipleResultsFound, .invalidRequestError, .sqlalchemyError, .exception]
  | .noResultFound => [.noResultFound, .invalidRequestError, .sqlalchemyError, .exception]
  | .resourceClosedError => [.resourceClosedError, .invalidRequestError, .sqlalchemyError, .exception]
  | .illegalStateChangeError => [.illegalStateChangeError, .invalidRequestError, .sqlalchemyError, .exception]
  | .integrityError => [.integrityError, .databaseError, .dbapiError, .statementError, .sqlalchemyError, .exception]
  | .noReferencedTableError => [.noReferencedTableError, .noReferenceError, .invalidRequestError, .sqlalchemyError, .exception]
  | .programmingError => [.programmingError, .databaseError, .dbapiError, .statementError, .sqlalchemyError, .exception]
  | .disconnectionError => [.disconnectionError, .sqlalchemyError, .exception]
  | .invalidatePoolError => [.invalidatePoolError, .disconnectionError, .sqlalchemyError, .exception]
  | .interfaceError => [.interfaceError, .dbapiError, .statementError, .sqlalchemyError, .exception]
  | .dbapiError => [.dbapiError, .statementError, .sqlalchemyError, .exception]
  | .statementError => [.statementError, .sqlalchemyError, .exception]
  | .objectNotExecutableError => [.objectNotExecutableError, .argumentError, .sqlalchemyError, .exception]
  | .unboundExecutionError => [.unboundExecutionError, .invalidRequestError, .sqlalchemyError, .exception]
  | .notSupportedError => [.notSupportedError, .databaseError, .dbapiError, .statementError, .sqlalchemyError, .exception]
  | .pendingRollbackError => [.pendingRollbackError, .invalidRequestError, .sqlalchemyError, .exception]
  | .invalidRequestError => [.invalidRequestError, .sqlalchemyError, .exception]
  | .missingGreenlet => [.missingGreenlet, .invalidRequestError, .sqlalchemyError, .exception]
  | .internalError => [.internalError, .databaseError, .dbapiError, .statementError, .sqlalchemyError, .exception]
  | .databaseError => [.databaseError, .dbapiError, .statementError, .sqlalchemyError, .exception]
  | .noInspectionAvailable => [.noInspectionAvailable, .exception]
  | .unreflectableTableError => [.unreflectableTableError, .invalidRequestError, .sqlalchemyError, .exception]
  | .noForeignKeysError => [.noForeignKeysError, .argumentError, .sqlalchemyError, .exception]
  | .noReferencedColumnError => [.noReferencedColumnError, .noReferenceError, .invalidRequestError, .sqlalchemyError, .exception]
  | .noReferenceError => [.noReferenceError, .invalidRequestError, .sqlalchemyError, .exception]
  | .argumentError => [.argumentError, .sqlalchemyError, .exception]
  | .awaitRequired => [.awaitRequired, .invalidRequestError, .sqlalchemyError, .exception]
  | .unsupportedCompilationError => [.unsupportedCompilationError, .compileError, .sqlalchemyError, .exception]
  | .compileError => [.compileError, .sqlalchemyError, .exception]
  | .ambiguousForeignKeysError => [.ambiguousForeignKeysError, .argumentError, .sqlalchemyError, .exception]
  | .circularDependencyError => [.circularDependencyError, .sqlalchemyError, .exception]
  | .constraintColumnNotFoundError => [.constraintColumnNotFoundError, .argumentError, .sqlalchemyError, .exception]
  | .duplicateColumnError => [.duplicateColumnError, .argumentError, .sqlalchemyError, .exception]
  | .noSuchTableError => [.noSuchTableError, .invalidRequestError, .sqlalchemyError, .exception]
  | .noSuchColumnError => [.noSuchColumnError, .invalidRequestError, .sqlalchemyError, .exception]
  | .noSuchModuleError => [.noSuchModuleError, .argumentError, .sqlalchemyError, .exception]
  | .sqlalchemyError => [.sqlalchemyError, .exception]
  | .operationalError => [.operationalError, .databaseError, .dbapiError, .statementError, .sqlalchemyError, .exception]
  | .timeoutError => [.timeoutError, .sqlalchemyError, .exception]
  | .requestValidationError => [.requestValidationError, .exception]
  | .exception => [.exception]

/-- The handler registry built by add_exception_handlers
(src/exc/exceptions.py): for each class carrying an app.exception_handler
registration, the response its handler returns.  execution_state_handler
picks 404 exactly for NoResultFound and 500 for the other three classes it
serves; programming_error_handler returns 500 for every sqlstate branch;
connection_management_handler is the only handler whose body carries
"retry": True; operational_handler returns 503 without that marker;
validation_exception_handler returns 422. -/
def registeredHandler : Exc → Option JsonResponse
  | .dataError => some { status_code := 400, retryable := false }
  | .identifierError => some { status_code := 400, retryable := false }
  | .multipleResultsFound => some { status_code := 500, retryable := false }
  | .noResultFound => some { status_code := 404, retryable := false }
  | .resourceClosedError => some { status_code := 500, retryable := false }
  | .illegalStateChangeError => some { status_code := 500, retryable := false }
  | .integrityError => some { status_code := 409, retryable := false }
  | .noReferencedTableError => some { status_code := 500, retryable := false }
  | .programmingError => some { status_code := 500, retryable := false }
  | .disconnectionError => some { status_code := 503, retryable := true }
  | .invalidatePoolError => some { status_code := 503, retryable := true }
  | .interfaceError => some { status_code := 503, retryable := true }
  | .dbapiError => some { status_code := 503, retryable := true }
  | .statementError => some { status_code := 500, retryable := false }
  | .objectNotExecutableError => some { status_code := 500, retryable := false }
  | .unboundExecutionError => some { status_code := 500, retryable := false }
  | .notSupportedError => some { status_code := 500, retryable := false }
  | .pendingRollbackError => some { status_code := 500, retryable := false }
  | .invalidRequestError => some { status_code := 500, retryable := false }
  | .missingGreenlet => some { status_code := 500, retryable := false }
  | .internalError => some { status_code := 500, retryable := false }
  | .databaseError => some { status_code := 500, retryable := false }
  | .noInspectionAvailable => some { status_code := 500, retryable := false }
  | .unreflectableTableError => some { status_code := 500, retryable := false }
  | .noForeignKeysError => some { status_code := 500, retryable := false }
  | .noReferencedColumnError => some { status_code := 500, retryable := false }
  | .noReferenceError => some { status_code := 500, retryable := false }
  | .argumentError => some { status_code := 500, retryable := false }
  | .awaitRequired => some { status_code := 500, retryable := false }
  | .unsupportedCompilationError => some { status_code := 500, retryable := false }
  | .compileError => some { status_code := 500, retryable := false }
  | .ambiguousForeignKeysError => some { status_code := 500, retryable := false }
  | .circularDependencyError => some { status_code := 500, retryable := false }
  | .constraintColumnNotFoundError => some { status_code := 500, retryable := false }
  | .duplicateColumnError => some { status_code := 500, retryable := false }
  | .noSuchTableError => some { status_code := 500, retryable := false }
  | .noSuchColumnError => some { status_code := 500, retryable := false }
  | .noSuchModuleError => some { status_code := 500, retryable := false }
  | .sqlalchemyError => some { status_code := 500, retryable := false }
  | .operationalError => some { status_code := 503, retryable := false }
  | .timeoutError => some { status_code := 504, retryable := false }
  | .requestValidationError => some { status_code := 422, retryable := false }
  | .exception => some { status_code := 500, retryable := false }

/-- Handler resolution: the first class along the raised exception's method
resolution order that has a registered handler determines the response; the
universal Exception handler terminates every walk, the default is never
reached. -/
def classify (e : Exc) : JsonResponse :=
  ((pythonMro e).findSome? registeredHandler).getD
    { status_code := 500, retryable := false }

/-- POST /create (src/router/comment.py lines 59-71): the body is validated
against CommentModel before the handler body runs, so an invalid text never
reaches the storage layer; a validation failure is answered by
validation_exception_handler.  Returns the HTTP status and the store after
the request. -/
def createRoute (post_id : Int) (text : String) (user_id now : Int)
    (s : List DbComment) : Nat × List DbComment :=
  if textValid text then (201, (create post_id text user_id now s).2)
  else ((classify Exc.requestValidationError).status_code, s)

/-- PUT /update/comment_id (src/router/comment.py lines 94-108), with body
validation against CommentUpdateModel ahead of the storage call and
rollback-on-error semantics for the store. -/
def updateRoute (comment_id : Int) (text : String) (user_id : Int)
    (s : List DbComment) : Nat × List DbComment :=
  if textValid text then
    match update comment_id text user_id s with
    | Except.error e => (e, s)
    | Except.ok (_, s') => (200, s')
  else ((classify Exc.requestValidationError).status_code, s)

/-- PATCH /patch/comment_id (src/router/comment.py lines 114-128), with body
validation against CommentPatchModel ahead of the storage call. -/
def patchRoute (comment_id : Int) (text : Option String) (user_id : Int)
    (s : List DbComment) : Nat × List DbComment :=
  if patchBodyValid text then
    match patch comment_id text user_id s with
    | Except.error e => (e, s)
    | Except.ok (_, s') => (200, s')
  else ((classify Exc.requestValidationError).status_code, s)

/-- The client-side pagination loop of the completeness property: starting
from a cursor, read a page, and while has_more is true follow next_cursor;
the collected items of all pages, with a fuel bound on the number of
read_all calls. -/
def collectPages (s : List DbComment) (limit : Nat) :
    Nat → Option Int → List DbComment
  | 0, _ => []
  | fuel + 1, cur =>
    let page := read_all limit cur s
    if page.has_more then page.items ++ collectPages s limit fuel page.next_cursor
    else page.items

/-- The rows of the store still ahead of a pagination cursor: everything for
an absent cursor, the rows with id below the cursor otherwise. -/
def remaining : Option Int → List DbComment → List DbComment
  | none, s => s
  | some l, s => s.filter fun c => decide (c.id < l)

/-- Cursor values the pagination loop can produce: either no cursor yet, or a
nonzero cursor (a zero cursor would be falsy for read_all). -/
def CurOk : Option Int → Prop
  | none => True
  | some l => l ≠ 0

/-- The single stored comment of the concrete scenario in spec section 8:
Create(post_id=1, text="hello", user=7) assigned id 1. -/
def helloComment : DbComment :=
  { id := 1, user_id := 7, post_id := 1, text := "hello", timestamp := 0 }

/-- A store holding exactly the scenario comment. -/
def helloStore : List DbComment := [helloComment]

/-- A three-comment store listed in descending id order, used as concrete
input by several witnesses. -/
def threeStore : List DbComment :=
  [ { id := 3, user_id := 7, post_id := 1, text := "third", timestamp := 2 },
    { id := 2, user_id := 8, post_id := 1, text := "second", timestamp := 1 },
    { id := 1, user_id := 7, post_id := 1, text := "first", timestamp := 0 } ]

/-- Boolean form of the ownership predicate. -/
theorem rowMatch_eq_true {comment_id user_id : Int} {c : DbComment} :
    rowMatch comment_id user_id c = true ↔
      c.id = comment_id ∧ c.user_id = user_id := by
  simp [rowMatch]

/-- C10: read_all called with cursor last_id = 0 behaves identically to
read_all with no cursor at all, returning the first page of comments: the
zero cursor is falsy for the Python test if last_id, so the WHERE clause is
omitted rather than applying the exclusive bound id < 0. -/
theorem read_all_zero_cursor_eq_no_cursor (limit : Nat) (s : List DbComment) :
    read_all limit (some 0) s = read_all limit none s := rfl

/-- C6 counterexample: in a store holding exactly the one scenario comment
(id 1), read_all with limit 10 and no cursor does return that single item
with has_more = false, but its next_cursor is null rather than 1, because
read_all nulls the cursor whenever has_more is false; the claimed
next_cursor = 1 is therefore false on the code. -/
theorem read_all_singleton_cursor_not_one :
    (read_all 10 none helloStore).items = [helloComment] ∧
    (read_all 10 none helloStore).has_more = false ∧
    (read_all 10 none helloStore).next_cursor ≠ some 1 := by decide

/-- C6 amended: in a store holding exactly one comment (id 1), read_all with
limit 10 and no cursor returns exactly that comment with next_cursor null
and has_more false. -/
theorem read_all_singleton_page :
    read_all 10 none helloStore =
      { items := [helloComment], next_cursor := none, has_more := false } := by
  decide

/-- C5 counterexample: at the reachable query value limit = 0 (the router
leaves limit unconstrained) over a one-comment store, read_all returns an
empty items list yet has_more = true, because the raw fetch of limit + 1 = 1
row found one row while the page was trimmed to zero items; so the claim is
false as stated for every limit. -/
theorem read_all_empty_items_not_always_final :
    (read_all 0 none helloStore).items = [] ∧
    (read_all 0 none helloStore).has_more = true := by decide

/-- C5 amended: for every limit at least 1 and every cursor, an empty items
list implies next_cursor = null and has_more = false (at limit = 0 a
nonempty store yields an empty page whose has_more is true, though
next_cursor is still null). -/
theorem read_all_empty_page_flags (limit : Nat) (last_id : Option Int)
    (s : List DbComment) (hlim : 1 ≤ limit)
    (h : (read_all limit last_id s).items = []) :
    (read_all limit last_id s).next_cursor = none ∧
    (read_all limit last_id s).has_more = false := by
  have hq : rawQuery limit last_id s = [] := by
    have h' : (rawQuery limit last_id s).take limit = [] := h
    rcases List.take_eq_nil_iff.mp h' with h1 | h1
    · omega
    · exact h1
  constructor
  · show (if decide (limit < (rawQuery limit last_id s).length) then
        ((rawQuery limit last_id s).take limit).getLast?.map DbComment.id
      else none) = none
    rw [hq]
    simp
  · show decide (limit < (rawQuery limit last_id s).length) = false
    rw [hq]
    simp

/-- C9 counterexample: an OperationalError — a driver-level operational
failure, explicitly included by the claim — resolves to operational_handler,
whose 503 response body does not carry the retryable marker; so the claim
that every connection-or-pool failure yields a 503 marked retryable is false
on the code. -/
theorem operational_error_not_marked_retryable :
    ¬ ((classify Exc.operationalError).status_code = 503 ∧
       (classify Exc.operationalError).retryable = true) := by decide

/-- C9 amended: every connection-or-pool failure class is answered with
status 503; the responses for DisconnectionError, InvalidatePoolError,
InterfaceError and DBAPIError carry the retryable marker, while the
OperationalError response is a 503 whose body lacks it. -/
theorem connection_failures_map_to_503 :
    classify Exc.disconnectionError = { status_code := 503, retryable := true } ∧
    classify Exc.invalidatePoolError = { status_code := 503, retryable := true } ∧
    classify Exc.interfaceError = { status_code := 503, retryable := true } ∧
    classify Exc.dbapiError = { status_code := 503, retryable := true } ∧
    classify Exc.operationalError = { status_code := 503, retryable := false } := by
  decide

/-- C4: for every store, limit at least 1 and cursor, the returned page holds
at most limit items, and has_more is true exactly when the raw limit + 1
fetch returned strictly more than limit rows, equivalently exactly when the
eligible rows outnumber the page bound, i.e. at least one eligible row
remains beyond the returned page. -/
theorem read_all_page_bound_and_has_more (limit : Nat) (last_id : Option Int)
    (s : List DbComment) (hlim : 1 ≤ limit) :
    (read_all limit last_id s).items.length ≤ limit ∧
    ((read_all limit last_id s).has_more = true ↔
      limit < (rawQuery limit last_id s).length) ∧
    ((read_all limit last_id s).has_more = true ↔
      limit < (eligibleRows last_id s).length) := by
  refine ⟨?_, ?_, ?_⟩
  · show ((rawQuery limit last_id s).take limit).length ≤ limit
    rw [List.length_take]
    omega
  · show decide (limit < (rawQuery limit last_id s).length) = true ↔ _
    exact decide_eq_true_iff
  · show decide (limit < (rawQuery limit last_id s).length) = true ↔ _
    rw [decide_eq_true_eq]
    show limit < ((orderByIdDesc (eligibleRows last_id s)).take (limit + 1)).length ↔ _
    rw [List.length_take, orderByIdDesc, List.length_insertionSort]
    omega

/-- C4 witness: the page bound and the two has_more characterizations at the
concrete input limit 1, no cursor, one-comment store. -/
theorem read_all_page_bound_and_has_more_witness :
    (read_all 1 none helloStore).items.length ≤ 1 ∧
    ((read_all 1 none helloStore).has_more = true ↔
      1 < (rawQuery 1 none helloStore).length) ∧
    ((read_all 1 none helloStore).has_more = true ↔
      1 < (eligibleRows none helloStore).length) :=
  read_all_page_bound_and_has_more 1 none helloStore (by decide)

/-- C5 witness for the amended claim: at limit 1 over the empty store the page
is empty and both flags are final. -/
theorem read_all_empty_page_flags_witness :
    (read_all 1 none []).next_cursor = none ∧
    (read_all 1 none []).has_more = false :=
  read_all_empty_page_flags 1 none [] (by decide) (by decide)

/-- C7: whenever the ownership-guarded write predicate matches no row of the
store (wrong id or wrong owner), update and patch fail with HTTP status 404
while delete fails with HTTP status 400. -/
theorem zero_match_mutation_statuses (comment_id user_id : Int) (t : String)
    (s : List DbComment)
    (h : ∀ c ∈ s, ¬ (c.id = comment_id ∧ c.user_id = user_id)) :
    update comment_id t user_id s = Except.error 404 ∧
    patch comment_id (some t) user_id s = Except.error 404 ∧
    delete comment_id user_id s = Except.error 400 := by
  have h' : ∀ c ∈ s, ¬ rowMatch comment_id user_id c = true := by
    intro c hc hr
    exact h c hc (rowMatch_eq_true.mp hr)
  have hf : s.filter (rowMatch comment_id user_id) = [] :=
    List.filter_eq_nil_iff.mpr h'
  have hc : s.countP (rowMatch comment_id user_id) = 0 :=
    List.countP_eq_zero.mpr h'
  refine ⟨?_, ?_, ?_⟩
  · simp [update, hf]
  · simp [patch, hf]
  · simp [delete, hc]

/-- C7 witness: comment id 1 exists but belongs to user 7, so the predicate
for caller 9 matches nothing and the three statuses are produced. -/
theorem zero_match_mutation_statuses_witness :
    update 1 "x" 9 helloStore = Except.error 404 ∧
    patch 1 (some "x") 9 helloStore = Except.error 404 ∧
    delete 1 9 helloStore = Except.error 400 :=
  zero_match_mutation_statuses 1 9 "x" helloStore (by decide)

/-- C8: any create, update or patch request whose text is longer than 256
characters is rejected by the pydantic body validation with the 422 response
of validation_exception_handler before the handler body runs, so the storage
layer is never reached and the store is unchanged. -/
theorem overlong_text_rejected (post_id comment_id user_id now : Int)
    (t : String) (s : List DbComment) (h : 256 < t.length) :
    createRoute post_id t user_id now s = (422, s) ∧
    updateRoute comment_id t user_id s = (422, s) ∧
    patchRoute comment_id (some t) user_id s = (422, s) := by
  have hv : textValid t = false := by
    simp only [textValid, decide_eq_false_iff_not]
    omega
  have h422 : (classify Exc.requestValidationError).status_code = 422 := rfl
  refine ⟨?_, ?_, ?_⟩
  · simp [createRoute, hv, h422]
  · simp [updateRoute, hv, h422]
  · simp [patchRoute, patchBodyValid, hv, h422]

set_option maxRecDepth 4096 in
/-- C8 witness: a 257-character text is rejected by all three routes over the
one-comment store, leaving it unchanged. -/
theorem overlong_text_rejected_witness :
    createRoute 1 (String.mk (List.replicate 257 'a')) 7 0 helloStore =
      (422, helloStore) ∧
    updateRoute 1 (String.mk (List.replicate 257 'a')) 7 helloStore =
      (422, helloStore) ∧
    patchRoute 1 (some (String.mk (List.replicate 257 'a'))) 7 helloStore =
      (422, helloStore) :=
  overlong_text_rejected 1 1 7 0 (String.mk (List.replicate 257 'a'))
    helloStore (by decide)

/-- C3: evaluation of patch at the failing input and at a normal one.  The
owner of the scenario comment patches it with the text field absent: the
empty updated_data makes the UPDATE statement unexecutable and the request
fails with a 500 handled error, the store unchanged, instead of succeeding
and returning the untouched comment as the claim (and the function's own
docstring) promise.  A patch with text present does overwrite the stored
text with the supplied value. -/
theorem patch_absent_text_fails :
    runPatch 1 none 7 helloStore = (some 500, helloStore) ∧
    runPatch 1 (some "bye") 7 helloStore =
      (none, [{ helloComment with text := "bye" }]) := by decide

/-- C1: ownership exclusivity.  For a stored comment c owned by user A, any
update with any text, any patch with a present text, and any delete issued
by a different caller B fail with the NotFoundOrUnauthorized statuses (404
for update and patch, 400 for delete), the exception being raised before
the commit, so the store — in particular c with all its fields — is exactly
unchanged.  Ids are pairwise distinct because id is the primary key. -/
theorem ownership_exclusive (s : List DbComment) (c : DbComment)
    (comment_id A B : Int) (t : String)
    (hnodup : (s.map DbComment.id).Nodup)
    (hc : c ∈ s) (hid : c.id = comment_id) (howner : c.user_id = A)
    (hne : B ≠ A) :
    runUpdate comment_id t B s = (some 404, s) ∧
    runPatch comment_id (some t) B s = (some 404, s) ∧
    runDelete comment_id B s = (some 400, s) := by
  have h' : ∀ d ∈ s, ¬ rowMatch comment_id B d = true := by
    intro d hd hr
    have hdu : d.id = comment_id ∧ d.user_id = B := rowMatch_eq_true.mp hr
    have hdc : d = c :=
      List.inj_on_of_nodup_map hnodup hd hc (by rw [hdu.1, hid])
    apply hne
    rw [← hdu.2, hdc, howner]
  have hf : s.filter (rowMatch comment_id B) = [] :=
    List.filter_eq_nil_iff.mpr h'
  have hcnt : s.countP (rowMatch comment_id B) = 0 :=
    List.countP_eq_zero.mpr h'
  refine ⟨?_, ?_, ?_⟩
  · simp [runUpdate, update, hf]
  · simp [runPatch, patch, hf]
  · simp [runDelete, delete, hcnt]

/-- C1 witness: user 9 attempting to update, patch or delete the scenario
comment owned by user 7 gets the error statuses and the store is unchanged. -/
theorem ownership_exclusive_witness :
    runUpdate 1 "bye" 9 helloStore = (some 404, helloStore) ∧
    runPatch 1 (some "bye") 9 helloStore = (some 404, helloStore) ∧
    runDelete 1 9 helloStore = (some 400, helloStore) :=
  ownership_exclusive helloStore helloComment 1 7 9 "bye" (by decide)
    (by decide) (by decide) (by decide) (by decide)

/-- A strictly descending listing is sorted for the ORDER BY comparison. -/
theorem sorted_geId_of_pairwise_gtId {s : List DbComment}
    (h : s.Pairwise gtId) : List.Sorted geId s :=
  h.imp fun hab => le_of_lt hab

/-- Sorting an already descending listing is the identity. -/
theorem orderByIdDesc_eq_self {s : List DbComment} (h : List.Sorted geId s) :
    orderByIdDesc s = s :=
  h.insertionSort_eq

/-- Over a descending store and a well-formed cursor, the executed read_all
query is the limit + 1 prefix of the rows remaining beyond the cursor. -/
theorem rawQuery_eq_remaining (limit : Nat) (cur : Option Int)
    (s : List DbComment) (hs : s.Pairwise gtId) (hcur : CurOk cur) :
    rawQuery limit cur s = (remaining cur s).take (limit + 1) := by
  cases cur with
  | none =>
    show (orderByIdDesc (eligibleRows none s)).take (limit + 1) = s.take (limit + 1)
    rw [show eligibleRows none s = s from rfl,
      orderByIdDesc_eq_self (sorted_geId_of_pairwise_gtId hs)]
  | some l =>
    have hl : l ≠ 0 := hcur
    have htr : pyTruthy (some l) = true := by
      simp [pyTruthy, hl]
    show (orderByIdDesc (eligibleRows (some l) s)).take (limit + 1) = _
    rw [show eligibleRows (some l) s = s.filter (fun c => decide (c.id < l)) by
        simp [eligibleRows, htr]]
    rw [orderByIdDesc_eq_self
      (sorted_geId_of_pairwise_gtId (hs.filter _))]
    rfl

/-- Over a descending store and a well-formed cursor, the page returned by
read_all is characterized by the rows remaining beyond the cursor. -/
theorem read_all_sorted (limit : Nat) (cur : Option Int) (s : List DbComment)
    (hs : s.Pairwise gtId) (hcur : CurOk cur) :
    read_all limit cur s =
      { items := (remaining cur s).take limit
        next_cursor :=
          if limit < (remaining cur s).length then
            ((remaining cur s).take limit).getLast?.map DbComment.id
          else none
        has_more := decide (limit < (remaining cur s).length) } := by
  have hq := rawQuery_eq_remaining limit cur s hs hcur
  show ({ items := (rawQuery limit cur s).take limit
          next_cursor :=
            if decide (limit < (rawQuery limit cur s).length) then
              ((rawQuery limit cur s).take limit).getLast?.map DbComment.id
            else none
          has_more := decide (limit < (rawQuery limit cur s).length) } :
        PaginatedCommentDisplay) = _
  rw [hq]
  have h1 : ((remaining cur s).take (limit + 1)).take limit
      = (remaining cur s).take limit := by
    rw [List.take_take, Nat.min_eq_left (Nat.le_succ _)]
  have h2 : decide (limit < ((remaining cur s).take (limit + 1)).length)
      = decide (limit < (remaining cur s).length) := by
    rw [List.length_take]
    exact decide_eq_decide.mpr (by omega)
  rw [h1, h2]
  by_cases h : limit < (remaining cur s).length
  · simp [h]
  · simp [h]

/-- Filtering a strictly descending listing below a pivot element drops
exactly the pivot and everything before it. -/
theorem filter_lt_pivot (A B : List DbComment) (x : DbComment)
    (h : (A ++ x :: B).Pairwise gtId) :
    (A ++ x :: B).filter (fun c => decide (c.id < x.id)) = B := by
  rcases List.pairwise_append.mp h with ⟨hA, hxB, hcross⟩
  rcases List.pairwise_cons.mp hxB with ⟨hxb, hB⟩
  rw [List.filter_append]
  have h1 : A.filter (fun c => decide (c.id < x.id)) = [] := by
    apply List.filter_eq_nil_iff.mpr
    intro a ha
    have hgt : x.id < a.id := hcross a ha x (List.mem_cons_self x B)
    simp only [decide_eq_true_eq]
    omega
  have hxx : (decide (x.id < x.id)) = false := by simp
  have h2 : B.filter (fun c => decide (c.id < x.id)) = B := by
    apply List.filter_eq_self.mpr
    intro b hb
    have hlt : b.id < x.id := hxb b hb
    simp [hlt]
  simp [h1, List.filter_cons, hxx, h2]

/-- Filtering a strictly descending listing below the last element of its
n-prefix leaves exactly the rows after the prefix. -/
theorem filter_lt_getLast_take {r : List DbComment} {n : Nat}
    (hr : r.Pairwise gtId) (hne : r.take n ≠ []) :
    r.filter (fun c => decide (c.id < ((r.take n).getLast hne).id))
      = r.drop n := by
  obtain ⟨x, hx⟩ : ∃ x, (r.take n).getLast hne = x := ⟨_, rfl⟩
  rw [hx]
  have hdecomp : (r.take n).dropLast ++ x :: r.drop n = r := by
    have h1 : (r.take n).dropLast ++ [x] = r.take n := by
      rw [← hx]
      exact List.dropLast_append_getLast hne
    calc (r.take n).dropLast ++ x :: r.drop n
        = ((r.take n).dropLast ++ [x]) ++ r.drop n := by
          rw [List.append_assoc, List.singleton_append]
      _ = r.take n ++ r.drop n := by rw [h1]
      _ = r := List.take_append_drop n r
  have hp : ((r.take n).dropLast ++ x :: r.drop n).Pairwise gtId := by
    rw [hdecomp]; exact hr
  calc r.filter (fun c => decide (c.id < x.id))
      = ((r.take n).dropLast ++ x :: r.drop n).filter
          (fun c => decide (c.id < x.id)) := by rw [hdecomp]
    _ = r.drop n := filter_lt_pivot _ _ _ hp

/-- Following the pagination cursor taken from an element of the remaining
rows narrows the remaining rows to those strictly below that element. -/
theorem remaining_next (s : List DbComment) (cur : Option Int) (x : DbComment)
    (hx : x ∈ remaining cur s) :
    remaining (some x.id) s
      = (remaining cur s).filter (fun c => decide (c.id < x.id)) := by
  cases cur with
  | none => rfl
  | some l =>
    have hxl : x.id < l := by
      have hx' := hx
      simp only [remaining, List.mem_filter, decide_eq_true_eq] at hx'
      exact hx'.2
    show s.filter (fun c => decide (c.id < x.id))
        = (s.filter (fun c => decide (c.id < l))).filter
            (fun c => decide (c.id < x.id))
    rw [List.filter_filter]
    apply List.filter_congr
    intro c _
    by_cases h : c.id < x.id
    · have hcl : c.id < l := lt_trans h hxl
      simp [h, hcl]
    · simp [h]

/-- The pagination loop over a descending store with a positive page size
collects exactly the rows remaining beyond its cursor, for any fuel bound of
at least that many rows. -/
theorem collectPages_eq_remaining (s : List DbComment) (limit : Nat)
    (hlim : 1 ≤ limit) (hsort : s.Pairwise gtId)
    (hpos : ∀ c ∈ s, 0 < c.id) :
    ∀ (fuel : Nat) (cur : Option Int), CurOk cur →
      (remaining cur s).length ≤ fuel →
      collectPages s limit fuel cur = remaining cur s := by
  intro fuel
  induction fuel with
  | zero =>
    intro cur hcur hlen
    have h0 : remaining cur s = [] :=
      List.length_eq_zero.mp (Nat.le_zero.mp hlen)
    simp [collectPages, h0]
  | succ n ih =>
    intro cur hcur hlen
    have hrp : (remaining cur s).Pairwise gtId := by
      cases cur with
      | none => exact hsort
      | some l => exact hsort.filter _
    have hrsub : remaining cur s ⊆ s := by
      cases cur with
      | none => exact fun a ha => ha
      | some l => exact (List.filter_sublist s).subset
    have hpage := read_all_sorted limit cur s hsort hcur
    by_cases hcase : limit < (remaining cur s).length
    · have htk : ((remaining cur s).take limit).length = limit := by
        rw [List.length_take]; omega
      have hne : (remaining cur s).take limit ≠ [] := by
        intro hnil
        rw [hnil] at htk
        simp at htk
        omega
      have hxmem : ((remaining cur s).take limit).getLast hne ∈ remaining cur s :=
        (List.take_sublist limit (remaining cur s)).subset (List.getLast_mem hne)
      have hxpos : 0 < (((remaining cur s).take limit).getLast hne).id :=
        hpos _ (hrsub hxmem)
      have hrem : remaining (some ((((remaining cur s).take limit).getLast hne)).id) s
          = (remaining cur s).drop limit := by
        rw [remaining_next s cur _ hxmem]
        exact filter_lt_getLast_take hrp hne
      have hcok : CurOk (some ((((remaining cur s).take limit).getLast hne)).id) := by
        show (((remaining cur s).take limit).getLast hne).id ≠ 0
        omega
      have hlen' : (remaining (some ((((remaining cur s).take limit).getLast hne)).id) s).length ≤ n := by
        rw [hrem, List.length_drop]
        omega
      have hres := ih _ hcok hlen'
      rw [hrem] at hres
      have hbt : (read_all limit cur s).has_more = true := by
        rw [hpage]
        exact decide_eq_true hcase
      have hit : (read_all limit cur s).items = (remaining cur s).take limit := by
        rw [hpage]
      have hnc : (read_all limit cur s).next_cursor
          = some ((((remaining cur s).take limit).getLast hne).id) := by
        rw [hpage]
        show (if limit < (remaining cur s).length then
            ((remaining cur s).take limit).getLast?.map DbComment.id
          else none) = _
        rw [if_pos hcase, List.getLast?_eq_getLast _ hne]
        rfl
      simp only [collectPages, hbt, if_true, hit, hnc]
      rw [hres]
      exact List.take_append_drop limit (remaining cur s)
    · have hle : (remaining cur s).length ≤ limit := Nat.le_of_not_lt hcase
      have hbf : (read_all limit cur s).has_more = false := by
        rw [hpage]
        exact decide_eq_false hcase
      have hit : (read_all limit cur s).items = (remaining cur s).take limit := by
        rw [hpage]
      simp only [collectPages, hbf, Bool.false_eq_true, if_false, hit]
      exact List.take_of_length_le hle

/-- C2: pagination completeness.  Over any store of N comments, listed in its
strictly descending id order with the positive ids the serial primary key
assigns, and any fixed limit at least 1, starting from read_all with no
cursor and repeatedly following next_cursor while has_more holds yields,
over the concatenated pages, exactly the N stored comments in strictly
descending id order, with no duplicates and no omissions.  N calls of fuel
always suffice because every non-final page consumes limit rows. -/
theorem pagination_complete (s : List DbComment) (limit : Nat)
    (hlim : 1 ≤ limit) (hsort : s.Pairwise gtId)
    (hpos : ∀ c ∈ s, 0 < c.id) :
    collectPages s limit s.length none = s ∧
    (collectPages s limit s.length none).Pairwise gtId := by
  have h := collectPages_eq_remaining s limit hlim hsort hpos s.length none
    trivial (Nat.le_refl _)
  have hs : remaining none s = s := rfl
  rw [hs] at h
  exact ⟨h, by rw [h]; exact hsort⟩

/-- C2 witness: paginating the three-comment store with limit 2 collects
exactly the store in its descending id order. -/
theorem pagination_complete_witness :
    collectPages threeStore 2 3 none = threeStore ∧
    (collectPages threeStore 2 3 none).Pairwise gtId :=
  pagination_complete threeStore 2 (by decide) (by decide) (by decide)
